import Mathlib

/-!
# Verification of the claude-code-server tool dispatcher

A shallow embedding of `src/claude-code-server/src/index.ts`:

* the Base64 text codec (`encodeText` / `decodeText`, lines 248–254),
* the prompt-building and truncation logic of `setupToolHandlers`
  (lines 471–572),
* the subprocess runner `runClaudeCommand` (lines 392–469) as a
  state-transition system over its event handlers, and
* the request dispatcher with its outer `try`/`catch`
  (lines 471–577).

JavaScript strings are modelled as `List Char`; JS-level helpers
(truthiness, `trim`, number formatting) are given explicit definitions.
-/

namespace ClaudeCodeServer

/-- The JS whitespace set used by `String.prototype.trim`
(ECMAScript WhiteSpace ∪ LineTerminator code points). -/
def jsWhitespace (c : Char) : Bool :=
  List.elem c.toNat
    [0x9, 0xA, 0xB, 0xC, 0xD, 0x20, 0xA0, 0x1680,
     0x2000, 0x2001, 0x2002, 0x2003, 0x2004, 0x2005, 0x2006, 0x2007,
     0x2008, 0x2009, 0x200A, 0x2028, 0x2029, 0x202F, 0x205F, 0x3000, 0xFEFF]

/-- JS `str.trim()`: strips whitespace from both ends. -/
def jsTrim (s : List Char) : List Char :=
  ((s.dropWhile jsWhitespace).reverse.dropWhile jsWhitespace).reverse

/-- For comparison with the spec wording only: removal of trailing
whitespace alone ("the accumulated standard-output text with trailing
whitespace trimmed"), as opposed to the two-sided `jsTrim` the code
performs. -/
def trimEndOnly (s : List Char) : List Char :=
  (s.reverse.dropWhile jsWhitespace).reverse

/-- JS truthiness of a possibly-`undefined` string:
`undefined` and the empty string are falsy. -/
def jsTruthy : Option (List Char) → Bool
  | none => false
  | some s => !s.isEmpty

/-- JS `a || b` on a possibly-`undefined` string. -/
def jsOr (a : Option (List Char)) (b : List Char) : List Char :=
  match a with
  | none => b
  | some s => if s.isEmpty then b else s

/-- JS `a ?? b` (nullish coalescing) on a possibly-`undefined` string. -/
def jsNullish (a : Option (List Char)) (b : List Char) : List Char :=
  a.getD b

/-- JS template-literal interpolation of a possibly-`undefined` value:
`undefined` prints as the string `undefined`. -/
def jsShow (a : Option (List Char)) : List Char :=
  a.getD "undefined".data

/-! ## Text codec (`encodeText` / `decodeText`, index.ts lines 248–254)

`Buffer.from(text, 'utf8').toString('base64')` is UTF-8 encoding
followed by standard Base64; `decodeText` is the inverse composite. -/

/-- UTF-8 encoding of one Unicode code point (< 0x110000). -/
def utf8EncodeChar (c : Nat) : List Nat :=
  if c < 0x80 then [c]
  else if c < 0x800 then [0xC0 + c / 64, 0x80 + c % 64]
  else if c < 0x10000 then
    [0xE0 + c / 4096, 0x80 + c / 64 % 64, 0x80 + c % 64]
  else
    [0xF0 + c / 262144, 0x80 + c / 4096 % 64, 0x80 + c / 64 % 64, 0x80 + c % 64]

/-- UTF-8 encoding of a sequence of code points. -/
def utf8Encode (l : List Nat) : List Nat :=
  (l.map utf8EncodeChar).flatten

/-- UTF-8 decoding state machine: `pending` is the number of continuation
bytes still expected, `acc` the partial code-point value. `none` on
malformed input. -/
def utf8Run : Nat → Nat → List Nat → Option (List Nat)
  | 0, _, [] => some []
  | 0, _, b :: rest =>
    if b < 0x80 then (utf8Run 0 0 rest).map (b :: ·)
    else if b < 0xC0 then none
    else if b < 0xE0 then utf8Run 1 (b - 0xC0) rest
    else if b < 0xF0 then utf8Run 2 (b - 0xE0) rest
    else if b < 0xF8 then utf8Run 3 (b - 0xF0) rest
    else none
  | _ + 1, _, [] => none
  | k + 1, acc, b :: rest =>
    if 0x80 ≤ b ∧ b < 0xC0 then
      if k = 0 then (utf8Run 0 0 rest).map ((acc * 64 + (b - 0x80)) :: ·)
      else utf8Run k (acc * 64 + (b - 0x80)) rest
    else none

/-- UTF-8 decoding back to code points; `none` on malformed input. -/
def utf8Decode (l : List Nat) : Option (List Nat) :=
  utf8Run 0 0 l

/-- The standard Base64 alphabet. -/
def b64Alphabet : List Char :=
  "ABCDEFGHIJKLMNOPQRSTUVWXYZabcdefghijklmnopqrstuvwxyz0123456789+/".data

/-- Character for a six-bit group. -/
def sextetToChar (n : Nat) : Char := b64Alphabet.getD n 'A'

/-- Six-bit value of a Base64 character; `none` for non-alphabet chars. -/
def charToSextet (c : Char) : Option Nat :=
  let i := b64Alphabet.indexOf c
  if i < 64 then some i else none

/-- Standard Base64 encoding (with `=` padding) of a byte sequence. -/
def base64Encode : List Nat → List Char
  | [] => []
  | [a] => [sextetToChar (a / 4), sextetToChar (a % 4 * 16), '=', '=']
  | [a, b] =>
    [sextetToChar (a / 4), sextetToChar (a % 4 * 16 + b / 16),
     sextetToChar (b % 16 * 4), '=']
  | a :: b :: c :: rest =>
    sextetToChar (a / 4) :: sextetToChar (a % 4 * 16 + b / 16) ::
    sextetToChar (b % 16 * 4 + c / 64) :: sextetToChar (c % 64) ::
    base64Encode rest

/-- Standard Base64 decoding; `none` on malformed input. -/
def base64Decode : List Char → Option (List Nat)
  | [] => some []
  | c1 :: c2 :: c3 :: c4 :: rest =>
    match charToSextet c1, charToSextet c2 with
    | some e1, some e2 =>
      if c3 = '=' then
        if c4 = '=' ∧ rest = [] then some [e1 * 4 + e2 / 16] else none
      else
        match charToSextet c3 with
        | some e3 =>
          if c4 = '=' then
            if rest = [] then some [e1 * 4 + e2 / 16, e2 % 16 * 16 + e3 / 4]
            else none
          else
            match charToSextet c4 with
            | some e4 =>
              (base64Decode rest).map
                (fun l => (e1 * 4 + e2 / 16) :: (e2 % 16 * 16 + e3 / 4) ::
                          (e3 % 4 * 64 + e4) :: l)
            | none => none
        | none => none
    | _, _ => none
  | _ => none

/-- `encodeText` (index.ts line 248): UTF-8 bytes of the text, Base64-encoded. -/
def encodeText (t : List Char) : List Char :=
  base64Encode (utf8Encode (t.map Char.toNat))

/-- Rebuild characters from code points, checking scalar-value validity. -/
def codepointsToChars : List Nat → Option (List Char)
  | [] => some []
  | n :: rest =>
    if h : n < 0xD800 ∨ (0xDFFF < n ∧ n < 0x110000) then
      (codepointsToChars rest).map (Char.ofNatAux n h :: ·)
    else none

/-- `decodeText` (index.ts line 252): Base64 bytes decoded as UTF-8 text. -/
def decodeText (s : List Char) : Option (List Char) :=
  (base64Decode s).bind fun bytes =>
    (utf8Decode bytes).bind codepointsToChars

/-! ## Prompt building (`setupToolHandlers`, index.ts lines 471–572) -/

/-- `truncateIfNeeded` (index.ts lines 473–479): strings longer than
`maxLength` are cut to the `maxLength`-character prefix and suffixed with
the marker `"... [truncated]"`. -/
def truncateIfNeeded (str : List Char) (maxLength : Nat := 10000) : List Char :=
  if str.length > maxLength then str.take maxLength ++ "... [truncated]".data
  else str

/-- JS `a || b` on a string that is already known to be defined. -/
def jsOrS (a b : List Char) : List Char := if a.isEmpty then b else a

/-- Arguments of a call-tool request: each key either absent
(`undefined`) or a string. -/
structure ToolArgs where
  code : Option (List Char) := none
  context : Option (List Char) := none
  focus_areas : Option (List Char) := none
  issue_description : Option (List Char) := none
  instructions : Option (List Char) := none
  test_framework : Option (List Char) := none
  command : Option (List Char) := none
  input : Option (List Char) := none
  query : Option (List Char) := none
deriving DecidableEq

/-- Fixed text before the encoded code in the `explain_code` template. -/
def explainPre : List Char :=
  "You are super professional engineer. Please kindly provide a detailed explanation of the following Base64 encoded code:\n\n".data

/-- Fixed text between code and context in the `explain_code` template. -/
def explainMid : List Char :=
  "\n\nAdditional context (if provided):\n".data

/-- The `explain_code` prompt template (index.ts line 490). -/
def explainPrompt (code : List Char) (context : Option (List Char)) : List Char :=
  explainPre ++ encodeText (truncateIfNeeded code) ++ explainMid
  ++ jsOr context "No additional context provided.".data

/-- Fixed text before the encoded code in the `review_code` template. -/
def reviewPre : List Char :=
  "You are super professional engineer. Please review the following Base64 encoded code. Consider code readability, efficiency, potential bugs, and security vulnerabilities.\n\nCode:\n".data

/-- Fixed text between code and focus areas in the `review_code` template. -/
def reviewMid : List Char :=
  "\n\nFocus areas (if provided):\n".data

/-- The `review_code` prompt template (index.ts line 507). -/
def reviewPrompt (code : List Char) (focus_areas : Option (List Char)) : List Char :=
  reviewPre ++ encodeText (truncateIfNeeded code) ++ reviewMid
  ++ jsOr focus_areas "No specific focus areas provided.".data

/-- Fixed text before the encoded code in the `fix_code` template. -/
def fixPre : List Char :=
  "You are super professional engineer. Please fix the following Base64 encoded code, addressing the issue described below:\n\nCode:\n".data

/-- Fixed text between code and issue in the `fix_code` template. -/
def fixMid : List Char :=
  "\n\nIssue description:\n".data

/-- The `fix_code` prompt template (index.ts line 523). -/
def fixPrompt (code : List Char) (issue_description : Option (List Char)) : List Char :=
  fixPre ++ encodeText (truncateIfNeeded code) ++ fixMid
  ++ jsNullish issue_description "No specific issue described.".data

/-- Fixed text before the encoded code in the `edit_code` template. -/
def editPre : List Char :=
  "You are super professional engineer. Please edit the following Base64 encoded code according to the instructions provided:\n\nCode:\n".data

/-- Fixed text between code and instructions in the `edit_code` template. -/
def editMid : List Char :=
  "\n\nInstructions:\n".data

/-- The `edit_code` prompt template (index.ts line 534). -/
def editPrompt (code : List Char) (instructions : Option (List Char)) : List Char :=
  editPre ++ encodeText (truncateIfNeeded code) ++ editMid
  ++ jsNullish instructions "No specific instructions provided.".data

/-- Fixed text before the encoded code in the `test_code` template. -/
def testPre : List Char :=
  "You are super professional engineer. Please generate tests for the following Base64 encoded code.\n\nCode:\n".data

/-- Fixed text between code and framework in the `test_code` template. -/
def testMid : List Char :=
  "\n\nTest framework (if specified):\n".data

/-- The `test_code` prompt template (index.ts lines 545–546). -/
def testPrompt (code : List Char) (test_framework : Option (List Char)) : List Char :=
  testPre ++ encodeText (truncateIfNeeded code) ++ testMid
  ++ jsOrS (jsOr test_framework "default".data)
      "No specific framework provided. Please use a suitable default framework.".data

/-- Fixed text before the command in the `simulate_command` template. -/
def simulatePre : List Char :=
  "You are super professional engineer. Simulate the execution of the following command:\n\nCommand: ".data

/-- Fixed text between command and input in the `simulate_command` template. -/
def simulateMid : List Char :=
  "\n\nInput: ".data

/-- Fixed text after the input in the `simulate_command` template. -/
def simulatePost : List Char :=
  "\n\nDescribe the expected behavior and output, without actually executing the command.".data

/-- The `simulate_command` prompt template (index.ts line 555): the
command and input are interpolated raw, with no encoding or truncation. -/
def simulatePrompt (command input : Option (List Char)) : List Char :=
  simulatePre ++ jsShow command ++ simulateMid
  ++ jsOr input "No input provided.".data ++ simulatePost

/-- The `your_own_query` prompt template (index.ts line 564): query and
context are interpolated raw. -/
def queryPrompt (query : List Char) (context : Option (List Char)) : List Char :=
  "Query: ".data ++ query ++ " ".data ++ jsOr context "".data

/-! ## Process Runner (`runClaudeCommand`, index.ts lines 392–469)

The promise executor is modelled as a state-transition system: the
synchronous setup block produces an initial state (and the stdin side
effects), and each event-handler execution (`stdout`/`stderr` data,
`close`, `error`, timeout expiry) is one `step`. -/

/-- `const timeoutMs = 5 * 60 * 1000` (index.ts line 395). -/
def timeoutMs : Nat := 5 * 60 * 1000

/-- The timeout rejection message (index.ts line 440). -/
def timeoutMsg : List Char :=
  "Command timed out after ".data ++ (Nat.repr (timeoutMs / 1000)).data
  ++ " seconds".data

/-- The non-zero-exit rejection message (index.ts line 453). -/
def failMsg (code : Int) (stderr : List Char) : List Char :=
  "Command failed with code ".data ++ (toString code).data ++ ": ".data ++ stderr

instance {ε α : Type} [DecidableEq ε] [DecidableEq α] : DecidableEq (Except ε α)
  | .ok a, .ok b => decidable_of_iff (a = b) (by simp)
  | .ok _, .error _ => isFalse (by simp)
  | .error _, .ok _ => isFalse (by simp)
  | .error a, .error b => decidable_of_iff (a = b) (by simp)

/-- State owned by one `runClaudeCommand` promise executor. -/
structure RunState where
  stdout : List Char
  stderr : List Char
  timerArmed : Bool
  killed : Bool
  result : Option (Except (List Char) (List Char))
deriving DecidableEq

/-- Events delivered to the handlers registered by `runClaudeCommand`. -/
inductive PEvent where
  | outData (chunk : List Char)
  | errData (chunk : List Char)
  | closeEvt (code : Int)
  | errorEvt (msg : List Char)
  | timeoutFire
deriving DecidableEq

/-- Settling the promise: only the first `resolve`/`reject` wins. -/
def settle (s : RunState) (r : Except (List Char) (List Char)) : RunState :=
  match s.result with
  | some _ => s
  | none => { s with result := some r }

/-- One event-handler execution (index.ts lines 422–462): data handlers
accumulate; `close` clears the timer then resolves/rejects on the exit
code; `error` clears the timer and rejects; the timeout callback (which
can only run while the timer is armed) kills the process and rejects. -/
def step (s : RunState) (e : PEvent) : RunState :=
  match e with
  | .outData c => { s with stdout := s.stdout ++ c }
  | .errData c => { s with stderr := s.stderr ++ c }
  | .closeEvt code =>
    let s' := { s with timerArmed := false }
    if code = 0 then settle s' (.ok (jsTrim s.stdout))
    else settle s' (.error (failMsg code s.stderr))
  | .errorEvt m => settle { s with timerArmed := false } (.error m)
  | .timeoutFire =>
    if s.timerArmed then
      settle { s with timerArmed := false, killed := true } (.error timeoutMsg)
    else s

/-- How `child_process.spawn` behaved: returned a process handle, or
threw synchronously (caught by the `catch` at index.ts lines 463–467). -/
inductive SpawnMode where
  | ok
  | throws (msg : List Char)
deriving DecidableEq

/-- State after the synchronous setup block: on a successful spawn the
timeout is armed (index.ts line 436); on a synchronous throw the promise
is already rejected and `setTimeout` was never reached. -/
def initRun : SpawnMode → RunState
  | .ok =>
    { stdout := [], stderr := [], timerArmed := true, killed := false,
      result := none }
  | .throws m =>
    { stdout := [], stderr := [], timerArmed := false, killed := false,
      result := some (.error m) }

/-- Side effects on the subprocess stdin stream. -/
inductive StdinOp where
  | write (s : List Char)
  | closeStdin
deriving DecidableEq

/-- The stdin handling of the setup block (index.ts lines 413–417):
`if (stdinInput) { proc.stdin.write(stdinInput); proc.stdin.end(); }` —
a JS-truthiness test, so `undefined` and `""` both skip the write. -/
def stdinWrites (stdinInput : Option (List Char)) : List StdinOp :=
  match stdinInput with
  | some s => if s.isEmpty then [] else [.write s, .closeStdin]
  | none => []

/-- The run of one promise executor over a sequence of delivered events. -/
def runTrace (m : SpawnMode) (events : List PEvent) : RunState :=
  events.foldl step (initRun m)

/-- The settled value of the promise after the events (if settled). -/
def runResult (m : SpawnMode) (events : List PEvent) :
    Option (Except (List Char) (List Char)) :=
  (runTrace m events).result

/-! ## Tool Dispatcher (`setupToolHandlers` CallTool handler,
index.ts lines 388–578) -/

/-- The error shape of `McpError(code, message)` as declared by the
repository's SDK type declarations. -/
structure McpErr where
  code : Nat
  message : List Char
deriving DecidableEq

/-- One `{ type: 'text', text }` entry of the response envelope. -/
structure ContentItem where
  type : List Char
  text : List Char
deriving DecidableEq

/-- The seven tool names enumerated by the `switch` (index.ts 482–569). -/
def knownToolNames : List (List Char) :=
  ["explain_code".data, "review_code".data, "fix_code".data,
   "edit_code".data, "test_code".data, "simulate_command".data,
   "your_own_query".data]

/-- The TypeError raised by reading `.length` of an `undefined` required
argument (e.g. index.ts line 486); its exact text is runtime-defined and
modelled as a fixed constant. -/
def undefinedPropErr : List Char :=
  "TypeError: Cannot read properties of undefined".data

/-- Message of the `McpError(404, ...)` built at index.ts line 571. -/
def unknownToolMsg (name : List Char) : List Char :=
  "Unknown tool: ".data ++ name

/-- `await runClaudeCommand(['--print'], prompt)` and the shaping of its
outcome: a resolved value becomes the single-entry envelope (e.g.
index.ts line 494); a rejection is caught by the outer catch and
re-thrown as `McpError(500, message)` (line 576). The second component
counts runner invocations. -/
def invokeTool (runner : List (List Char) → List Char →
      Except (List Char) (List Char)) (prompt : List Char) :
    Except McpErr (List ContentItem) × Nat :=
  match runner ["--print".data] prompt with
  | .ok out => (.ok [⟨"text".data, out⟩], 1)
  | .error m => (.error ⟨500, m⟩, 1)

/-- Accessing a required argument: on `undefined` the handler body throws
a TypeError (reading `.length`), which the outer catch converts to
`McpError(500, ...)`; no subprocess is spawned. -/
def withRequiredArg (a : Option (List Char))
    (k : List Char → Except McpErr (List ContentItem) × Nat) :
    Except McpErr (List ContentItem) × Nat :=
  match a with
  | none => (.error ⟨500, undefinedPropErr⟩, 0)
  | some v => k v

/-- The CallTool request handler (index.ts lines 388–578): the `switch`
over the tool name inside the outer `try`/`catch`. `runner` abstracts
`runClaudeCommand`; the `Nat` component counts how many subprocess
invocations occurred. -/
def dispatch (name : List Char) (args : ToolArgs)
    (runner : List (List Char) → List Char → Except (List Char) (List Char)) :
    Except McpErr (List ContentItem) × Nat :=
  if name = "explain_code".data then
    withRequiredArg args.code fun code =>
      invokeTool runner (explainPrompt code args.context)
  else if name = "review_code".data then
    withRequiredArg args.code fun code =>
      invokeTool runner (reviewPrompt code args.focus_areas)
  else if name = "fix_code".data then
    withRequiredArg args.code fun code =>
      invokeTool runner (fixPrompt code args.issue_description)
  else if name = "edit_code".data then
    withRequiredArg args.code fun code =>
      invokeTool runner (editPrompt code args.instructions)
  else if name = "test_code".data then
    withRequiredArg args.code fun code =>
      invokeTool runner (testPrompt code args.test_framework)
  else if name = "simulate_command".data then
    invokeTool runner (simulatePrompt args.command args.input)
  else if name = "your_own_query".data then
    withRequiredArg args.query fun query =>
      invokeTool runner (queryPrompt query args.context)
  else (.error ⟨500, unknownToolMsg name⟩, 0)

/-- Whether the arguments whose absence would make the handler body throw
are present (the `.length` accesses on required arguments). -/
def requiredArgsPresent (name : List Char) (args : ToolArgs) : Bool :=
  if name = "explain_code".data ∨ name = "review_code".data ∨
     name = "fix_code".data ∨ name = "edit_code".data ∨
     name = "test_code".data then args.code.isSome
  else if name = "your_own_query".data then args.query.isSome
  else true

/-! ## Codec roundtrip lemmas -/

theorem charToSextet_sextetToChar : ∀ n : Nat, n < 64 →
    charToSextet (sextetToChar n) = some n := by decide

theorem sextetToChar_ne_pad : ∀ n : Nat, n < 64 → sextetToChar n ≠ '=' := by decide

theorem base64_roundtrip : ∀ l : List Nat, (∀ x ∈ l, x < 256) →
    base64Decode (base64Encode l) = some l
  | [], _ => rfl
  | [a], h => by
    have ha : a < 256 := h a (by simp)
    have h1 : a / 4 < 64 := by omega
    have h2 : a % 4 * 16 < 64 := by omega
    simp only [base64Encode, base64Decode, charToSextet_sextetToChar _ h1,
      charToSextet_sextetToChar _ h2]
    simp
    omega
  | [a, b], h => by
    have ha : a < 256 := h a (by simp)
    have hb : b < 256 := h b (by simp)
    have h1 : a / 4 < 64 := by omega
    have h2 : a % 4 * 16 + b / 16 < 64 := by omega
    have h3 : b % 16 * 4 < 64 := by omega
    simp only [base64Encode, base64Decode, charToSextet_sextetToChar _ h1,
      charToSextet_sextetToChar _ h2, charToSextet_sextetToChar _ h3,
      if_neg (sextetToChar_ne_pad _ h3)]
    simp
    omega
  | a :: b :: c :: rest, h => by
    have ha : a < 256 := h a (by simp)
    have hb : b < 256 := h b (by simp)
    have hc : c < 256 := h c (by simp)
    have ih := base64_roundtrip rest (fun x hx => h x (by simp [hx]))
    have h1 : a / 4 < 64 := by omega
    have h2 : a % 4 * 16 + b / 16 < 64 := by omega
    have h3 : b % 16 * 4 + c / 64 < 64 := by omega
    have h4 : c % 64 < 64 := by omega
    simp only [base64Encode, base64Decode, charToSextet_sextetToChar _ h1,
      charToSextet_sextetToChar _ h2, charToSextet_sextetToChar _ h3,
      charToSextet_sextetToChar _ h4, if_neg (sextetToChar_ne_pad _ h3),
      if_neg (sextetToChar_ne_pad _ h4), ih]
    simp
    refine ⟨by omega, by omega, by omega⟩

theorem utf8Run_lead (b : Nat) (rest : List Nat) :
    utf8Run 0 0 (b :: rest) =
      if b < 0x80 then (utf8Run 0 0 rest).map (b :: ·)
      else if b < 0xC0 then none
      else if b < 0xE0 then utf8Run 1 (b - 0xC0) rest
      else if b < 0xF0 then utf8Run 2 (b - 0xE0) rest
      else if b < 0xF8 then utf8Run 3 (b - 0xF0) rest
      else none := by
  simp only [utf8Run]

theorem utf8Run_cont (k acc b : Nat) (rest : List Nat)
    (h : 0x80 ≤ b ∧ b < 0xC0) :
    utf8Run (k + 1) acc (b :: rest) =
      if k = 0 then (utf8Run 0 0 rest).map ((acc * 64 + (b - 0x80)) :: ·)
      else utf8Run k (acc * 64 + (b - 0x80)) rest := by
  simp only [utf8Run, if_pos h]

theorem utf8Decode_encodeChar (c : Nat) (hc : c < 0x110000) (rest : List Nat) :
    utf8Decode (utf8EncodeChar c ++ rest) = (utf8Decode rest).map (c :: ·) := by
  unfold utf8Decode
  by_cases h1 : c < 0x80
  · simp only [utf8EncodeChar, if_pos h1, List.cons_append, List.nil_append,
      utf8Run_lead, if_pos h1]
  · by_cases h2 : c < 0x800
    · have e4 : 0x80 ≤ 0x80 + c % 64 ∧ 0x80 + c % 64 < 0xC0 := by omega
      have ev : (0xC0 + c / 64 - 0xC0) * 64 + (0x80 + c % 64 - 0x80) = c := by
        omega
      simp only [utf8EncodeChar, if_neg h1, if_pos h2, List.cons_append,
        List.nil_append]
      rw [utf8Run_lead, if_neg (by omega), if_neg (by omega),
        if_pos (by omega), utf8Run_cont 0 _ _ _ e4, if_pos rfl, ev]
    · by_cases h3 : c < 0x10000
      · have e5 : 0x80 ≤ 0x80 + c / 64 % 64 ∧ 0x80 + c / 64 % 64 < 0xC0 := by
          omega
        have e6 : 0x80 ≤ 0x80 + c % 64 ∧ 0x80 + c % 64 < 0xC0 := by omega
        have ev : ((0xE0 + c / 4096 - 0xE0) * 64 +
            (0x80 + c / 64 % 64 - 0x80)) * 64 + (0x80 + c % 64 - 0x80) = c := by
          omega
        simp only [utf8EncodeChar, if_neg h1, if_neg h2, if_pos h3,
          List.cons_append, List.nil_append]
        rw [utf8Run_lead, if_neg (by omega), if_neg (by omega),
          if_neg (by omega), if_pos (by omega), utf8Run_cont 1 _ _ _ e5,
          if_neg (by omega), utf8Run_cont 0 _ _ _ e6, if_pos rfl, ev]
      · have e6 : 0x80 ≤ 0x80 + c / 4096 % 64 ∧ 0x80 + c / 4096 % 64 < 0xC0 := by
          omega
        have e7 : 0x80 ≤ 0x80 + c / 64 % 64 ∧ 0x80 + c / 64 % 64 < 0xC0 := by
          omega
        have e8 : 0x80 ≤ 0x80 + c % 64 ∧ 0x80 + c % 64 < 0xC0 := by omega
        have ev : (((0xF0 + c / 262144 - 0xF0) * 64 +
            (0x80 + c / 4096 % 64 - 0x80)) * 64 +
            (0x80 + c / 64 % 64 - 0x80)) * 64 + (0x80 + c % 64 - 0x80) = c := by
          omega
        simp only [utf8EncodeChar, if_neg h1, if_neg h2, if_neg h3,
          List.cons_append, List.nil_append]
        rw [utf8Run_lead, if_neg (by omega), if_neg (by omega),
          if_neg (by omega), if_neg (by omega), if_pos (by omega),
          utf8Run_cont 2 _ _ _ e6, if_neg (by omega),
          utf8Run_cont 1 _ _ _ e7, if_neg (by omega),
          utf8Run_cont 0 _ _ _ e8, if_pos rfl, ev]

theorem utf8_roundtrip : ∀ l : List Nat, (∀ c ∈ l, c < 0x110000) →
    utf8Decode (utf8Encode l) = some l
  | [], _ => rfl
  | c :: l, h => by
    have hc : c < 0x110000 := h c (by simp)
    have ih := utf8_roundtrip l (fun x hx => h x (by simp [hx]))
    have hsplit : utf8Encode (c :: l) = utf8EncodeChar c ++ utf8Encode l := by
      simp [utf8Encode]
    rw [hsplit, utf8Decode_encodeChar c hc, ih]
    rfl

theorem char_toNat_valid (c : Char) :
    c.toNat < 0xD800 ∨ (0xDFFF < c.toNat ∧ c.toNat < 0x110000) := c.valid

theorem char_ofNatAux_toNat (c : Char) (h : c.toNat.isValidChar) :
    Char.ofNatAux c.toNat h = c := by
  apply Char.eq_of_val_eq
  apply UInt32.eq_of_toBitVec_eq
  apply BitVec.eq_of_toNat_eq
  simp [Char.ofNatAux, Char.toNat, UInt32.toNat]

theorem codepointsToChars_map_toNat : ∀ t : List Char,
    codepointsToChars (t.map Char.toNat) = some t
  | [] => rfl
  | c :: t => by
    have hv : c.toNat < 0xD800 ∨ (0xDFFF < c.toNat ∧ c.toNat < 0x110000) :=
      char_toNat_valid c
    simp only [List.map_cons, codepointsToChars, dif_pos hv,
      codepointsToChars_map_toNat t, Option.map_some', Option.some.injEq,
      List.cons.injEq, and_true]
    exact char_ofNatAux_toNat c hv

theorem utf8Encode_bytes_lt (l : List Nat) (h : ∀ c ∈ l, c < 0x110000) :
    ∀ b ∈ utf8Encode l, b < 256 := by
  intro b hb
  simp only [utf8Encode, List.mem_flatten, List.mem_map] at hb
  obtain ⟨bs, ⟨c, hc, rfl⟩, hbbs⟩ := hb
  have hcv := h c hc
  unfold utf8EncodeChar at hbbs
  split at hbbs
  · simp at hbbs; omega
  · split at hbbs
    · simp at hbbs; omega
    · split at hbbs
      · simp at hbbs; omega
      · simp at hbbs; omega

/-- Composite codec roundtrip: decoding an encoding recovers the text. -/
theorem decodeText_encodeText (t : List Char) :
    decodeText (encodeText t) = some t := by
  have hvalid : ∀ c ∈ t.map Char.toNat, c < 0x110000 := by
    intro c hc
    simp only [List.mem_map] at hc
    obtain ⟨d, _, rfl⟩ := hc
    rcases char_toNat_valid d with h | h <;> omega
  unfold decodeText encodeText
  rw [base64_roundtrip _ (utf8Encode_bytes_lt _ hvalid)]
  rw [Option.some_bind, utf8_roundtrip _ hvalid, Option.some_bind]
  exact codepointsToChars_map_toNat t

/-- Folding standard-output data events accumulates the chunks. -/
theorem foldl_outData : ∀ (cs : List (List Char)) (s : RunState),
    (cs.map PEvent.outData).foldl step s =
      { s with stdout := s.stdout ++ cs.flatten }
  | [], s => by simp
  | c :: cs, s => by
    simp only [List.map_cons, List.foldl_cons, step]
    rw [foldl_outData cs]
    simp [List.append_assoc]

/-- A runner invocation whose outcome is an error surfaces as
`McpError 500` carrying the runner's message. -/
theorem invokeTool_error (runner : List (List Char) → List Char →
      Except (List Char) (List Char)) (prompt : List Char) (e : McpErr)
    (h : (invokeTool runner prompt).1 = .error e) :
    e.code = 500 ∧ ∃ p, runner ["--print".data] p = .error e.message := by
  unfold invokeTool at h
  cases hr : runner ["--print".data] prompt with
  | ok out => rw [hr] at h; simp at h
  | error m =>
    rw [hr] at h
    simp only at h
    injection h with h
    subst h
    exact ⟨rfl, prompt, hr⟩

/-! ## Claim theorems -/

/-- C5: for every text string `T` — including the empty string and
strings with embedded newlines, quotes and control characters —
`decodeText (encodeText T)` equals `T`. -/
theorem claim5_codec_roundtrip (t : List Char) :
    decodeText (encodeText t) = some t :=
  decodeText_encodeText t

/-- C10: invoking the Process Runner with empty input text behaves
exactly like providing no input: nothing is written to the subprocess
stdin stream and the stream is not closed; the write-then-close happens
only for non-empty input text. -/
theorem claim10_stdin_truthiness :
    stdinWrites (some []) = [] ∧ stdinWrites none = [] ∧
    ∀ s : List Char, s ≠ [] →
      stdinWrites (some s) = [.write s, .closeStdin] := by
  refine ⟨rfl, rfl, fun s hs => ?_⟩
  simp [stdinWrites, hs]

/-- C10 witness: non-empty input is written then the stream is closed. -/
theorem claim10_stdin_truthiness_witness :
    ("hi".data ≠ []) ∧
    stdinWrites (some "hi".data) = [.write "hi".data, .closeStdin] :=
  ⟨by decide, claim10_stdin_truthiness.2.2 "hi".data (by decide)⟩

/-- C2: the timeout (default 300 seconds) is armed at spawn time; firing
while armed on an unsettled run kills the subprocess and rejects with a
message naming the configured 300-second duration; the `close` handler
disarms the timer synchronously, and a disarmed timeout is a no-op, so
the timeout can never fire after a clean exit. -/
theorem claim2_timeout_lifecycle :
    (initRun .ok).timerArmed = true ∧
    timeoutMs = 300000 ∧
    timeoutMsg = "Command timed out after 300 seconds".data ∧
    (∀ s : RunState, s.timerArmed = true → s.result = none →
      (step s .timeoutFire).killed = true ∧
      (step s .timeoutFire).result = some (.error timeoutMsg)) ∧
    (∀ (s : RunState) (code : Int),
      (step s (.closeEvt code)).timerArmed = false) ∧
    (∀ s : RunState, s.timerArmed = false → step s .timeoutFire = s) := by
  refine ⟨rfl, rfl, by decide, fun s h1 h2 => ?_, fun s code => ?_,
    fun s h => ?_⟩
  · constructor <;> simp [step, h1, settle, h2]
  · by_cases h : code = 0 <;>
      cases hr : s.result <;> simp [step, h, settle, hr]
  · simp [step, h]

/-- C2 witness: the armed initial state at the timeout event. -/
theorem claim2_timeout_lifecycle_witness :
    (initRun .ok).timerArmed = true ∧ (initRun .ok).result = none ∧
    (step (initRun .ok) .timeoutFire).killed = true ∧
    (step (initRun .ok) .timeoutFire).result =
      some (.error timeoutMsg) := by
  have h := claim2_timeout_lifecycle
  exact ⟨rfl, rfl, (h.2.2.2.1 (initRun .ok) rfl rfl).1,
    (h.2.2.2.1 (initRun .ok) rfl rfl).2⟩

/-- C4: a non-zero exit rejects with a message carrying both the exit
code and the accumulated stderr text; concretely, exit code 2 with
stderr "boom" yields a message containing "2" and "boom". -/
theorem claim4_nonzero_exit :
    (∀ (s : RunState) (code : Int), code ≠ 0 → s.result = none →
      (step s (.closeEvt code)).result =
        some (.error (failMsg code s.stderr)) ∧
      List.IsInfix (toString code).data (failMsg code s.stderr) ∧
      List.IsInfix s.stderr (failMsg code s.stderr)) ∧
    runResult .ok [.errData "boom".data, .closeEvt 2] =
      some (.error "Command failed with code 2: boom".data) ∧
    List.IsInfix "2".data "Command failed with code 2: boom".data ∧
    List.IsInfix "boom".data "Command failed with code 2: boom".data := by
  refine ⟨fun s code hc hr => ⟨?_, ?_, ?_⟩, by decide, by decide, by decide⟩
  · simp [step, hc, settle, hr]
  · exact ⟨"Command failed with code ".data, ": ".data ++ s.stderr, by
      simp [failMsg, List.append_assoc]⟩
  · exact ⟨"Command failed with code ".data ++ (toString code).data
      ++ ": ".data, [], by simp [failMsg, List.append_assoc]⟩

/-- C4 witness: the general branch applied at the exit-2/"boom" state. -/
theorem claim4_nonzero_exit_witness :
    ((2 : Int) ≠ 0) ∧
    (step { stdout := [], stderr := "boom".data, timerArmed := true,
            killed := false, result := none } (.closeEvt 2)).result =
      some (.error (failMsg 2 "boom".data)) := by
  have h := claim4_nonzero_exit.1
    { stdout := [], stderr := "boom".data, timerArmed := true,
      killed := false, result := none } 2 (by decide) rfl
  exact ⟨by decide, h.1⟩

/-- C8 counterexample: a spawn-level failure is delivered as an
asynchronous `error` event (this is how the runtime reports ENOENT or
EACCES), and at that moment the timeout armed by the setup block is
still armed — refuting "in no execution is the timeout timer armed at
the moment a spawn-level failure is reported". -/
theorem claim8_counterexample :
    (initRun .ok).timerArmed = true ∧
    (step (initRun .ok) (.errorEvt "spawn claude ENOENT".data)).result =
      some (.error "spawn claude ENOENT".data) := by decide

/-- C8 (amended): a spawn-level failure rejects the call with the
underlying system error; the error handler disarms any armed timer
synchronously as part of reporting the failure (so no timeout fires
afterwards), and only a synchronous spawn throw rejects with the timer
never having been armed. -/
theorem claim8_spawn_failure :
    (∀ (s : RunState) (m : List Char), s.result = none →
      (step s (.errorEvt m)).result = some (.error m) ∧
      (step s (.errorEvt m)).timerArmed = false) ∧
    (∀ m : List Char, (initRun (.throws m)).result = some (.error m) ∧
      (initRun (.throws m)).timerArmed = false) ∧
    (∀ s : RunState, s.timerArmed = false → step s .timeoutFire = s) := by
  refine ⟨fun s m hr => ?_, fun m => ⟨rfl, rfl⟩, fun s h => by simp [step, h]⟩
  constructor <;> simp [step, settle, hr]

/-- C6 counterexample: the marker the code appends is
`"... [truncated]"` (ellipsis and space included), so the output is not
the 10,000-character prefix followed by the bare `"[truncated]"` marker;
moreover a string whose final 15 characters are exactly the marker is
its own truncation, so the output can be the full original text. -/
theorem claim6_counterexample :
    truncateIfNeeded (List.replicate 10001 'a') =
      List.replicate 10000 'a' ++ "... [truncated]".data ∧
    truncateIfNeeded (List.replicate 10001 'a') ≠
      List.replicate 10000 'a' ++ "[truncated]".data ∧
    truncateIfNeeded (List.replicate 10000 'a' ++ "... [truncated]".data) =
      List.replicate 10000 'a' ++ "... [truncated]".data := by
  have hmark : ("... [truncated]".data).length = 15 := rfl
  have hrep : (List.replicate 10000 'a').length = 10000 :=
    List.length_replicate 10000 'a'
  have htake : (List.replicate 10001 'a').take 10000 =
      List.replicate 10000 'a' := by
    rw [show (10001 : Nat) = 10000 + 1 from rfl,
      ← List.append_replicate_replicate, List.take_left' hrep]
  have hlong : 10000 < (List.replicate 10001 'a').length := by
    rw [List.length_replicate]
    omega
  have hlong2 :
      10000 < (List.replicate 10000 'a' ++ "... [truncated]".data).length := by
    rw [List.length_append, hrep, hmark]
    omega
  have h1 : truncateIfNeeded (List.replicate 10001 'a') =
      List.replicate 10000 'a' ++ "... [truncated]".data := by
    unfold truncateIfNeeded
    rw [if_pos hlong, htake]
  refine ⟨h1, fun h => ?_, ?_⟩
  · rw [h1] at h
    have := List.append_right_injective (List.replicate 10000 'a') h
    exact absurd this (by decide)
  · unfold truncateIfNeeded
    rw [if_pos hlong2, List.take_left' hrep]

/-- C6 (amended): a code argument longer than 10,000 characters is cut
to its 10,000-character prefix followed by the fixed marker
`"... [truncated]"` (which carries the visible `"[truncated]"` text, and
can coincide with the full original only in the degenerate case where
the original itself ends in the marker); this truncated value is what
gets encoded into the built prompt; strings of length at most 10,000
pass through unchanged. -/
theorem claim6_truncation (str : List Char) :
    (10000 < str.length →
      truncateIfNeeded str = str.take 10000 ++ "... [truncated]".data) ∧
    (str.length ≤ 10000 → truncateIfNeeded str = str) ∧
    (∀ context, List.IsInfix (encodeText (truncateIfNeeded str))
      (explainPrompt str context)) ∧
    List.IsInfix "[truncated]".data "... [truncated]".data := by
  refine ⟨fun h => ?_, fun h => ?_, fun context => ?_, by decide⟩
  · unfold truncateIfNeeded
    rw [if_pos h]
  · unfold truncateIfNeeded
    rw [if_neg (by omega)]
  · exact ⟨explainPre,
      explainMid ++ jsOr context "No additional context provided.".data,
      by simp [explainPrompt, List.append_assoc]⟩

/-- C6 witness: truncation at length 10,001 and pass-through at a short
string. -/
theorem claim6_truncation_witness :
    (10000 < (List.replicate 10001 'b').length) ∧
    truncateIfNeeded (List.replicate 10001 'b') =
      (List.replicate 10001 'b').take 10000 ++ "... [truncated]".data ∧
    ("short".data.length ≤ 10000) ∧
    truncateIfNeeded "short".data = "short".data := by
  have hlen : 10000 < (List.replicate 10001 'b').length := by
    rw [List.length_replicate]; omega
  have h1 := (claim6_truncation (List.replicate 10001 'b')).1 hlen
  have h2 := (claim6_truncation "short".data).2.1 (by decide)
  exact ⟨hlen, h1, by decide, h2⟩

/-- C9: `simulate_command` and `your_own_query` interpolate their
argument values verbatim — neither base64-encoded nor length-truncated —
so for these tools an argument of any length appears in the prompt in
full; the encode-after-truncate treatment applies to the `code` argument
of the code-handling tools. -/
theorem claim9_raw_interpolation :
    (∀ command input : List Char,
      List.IsInfix command (simulatePrompt (some command) (some input)) ∧
      (input ≠ [] →
        List.IsInfix input (simulatePrompt (some command) (some input)))) ∧
    (∀ query context : List Char,
      List.IsInfix query (queryPrompt query (some context)) ∧
      List.IsInfix context (queryPrompt query (some context))) ∧
    (∀ code v : List Char,
      List.IsInfix (encodeText (truncateIfNeeded code))
        (reviewPrompt code (some v)) ∧
      List.IsInfix (encodeText (truncateIfNeeded code))
        (fixPrompt code (some v)) ∧
      List.IsInfix (encodeText (truncateIfNeeded code))
        (editPrompt code (some v)) ∧
      List.IsInfix (encodeText (truncateIfNeeded code))
        (testPrompt code (some v))) := by
  refine ⟨fun command input => ⟨?_, fun hi => ?_⟩,
    fun query context => ⟨?_, ?_⟩, fun code v => ⟨?_, ?_, ?_, ?_⟩⟩
  · exact ⟨simulatePre,
      simulateMid ++ jsOr (some input) "No input provided.".data
        ++ simulatePost,
      by simp [simulatePrompt, jsShow, List.append_assoc]⟩
  · exact ⟨simulatePre ++ command ++ simulateMid, simulatePost, by
      simp [simulatePrompt, jsShow, jsOr, List.isEmpty_iff, hi,
        List.append_assoc]⟩
  · exact ⟨"Query: ".data, " ".data ++ jsOr (some context) [], by
      simp [queryPrompt, List.append_assoc]⟩
  · by_cases hc : context = []
    · exact ⟨[], queryPrompt query (some context), by simp [hc]⟩
    · exact ⟨"Query: ".data ++ query ++ " ".data, [], by
        simp [queryPrompt, jsOr, List.isEmpty_iff, hc, List.append_assoc]⟩
  · exact ⟨reviewPre,
      reviewMid ++ jsOr (some v) "No specific focus areas provided.".data,
      by simp [reviewPrompt, List.append_assoc]⟩
  · exact ⟨fixPre,
      fixMid ++ jsNullish (some v) "No specific issue described.".data,
      by simp [fixPrompt, List.append_assoc]⟩
  · exact ⟨editPre,
      editMid ++ jsNullish (some v) "No specific instructions provided.".data,
      by simp [editPrompt, List.append_assoc]⟩
  · exact ⟨testPre,
      testMid ++ jsOrS (jsOr (some v) "default".data)
        "No specific framework provided. Please use a suitable default framework.".data,
      by simp [testPrompt, List.append_assoc]⟩

/-- C9 witness: a non-empty input embedded verbatim. -/
theorem claim9_raw_interpolation_witness :
    ("in".data ≠ []) ∧
    List.IsInfix "in".data
      (simulatePrompt (some "cmd".data) (some "in".data)) :=
  ⟨by decide,
    (claim9_raw_interpolation.1 "cmd".data "in".data).2 (by decide)⟩

/-- C8 witness: the error event at the armed initial state. -/
theorem claim8_spawn_failure_witness :
    (step (initRun .ok) (.errorEvt "EACCES".data)).result =
      some (.error "EACCES".data) ∧
    (step (initRun .ok) (.errorEvt "EACCES".data)).timerArmed = false :=
  claim8_spawn_failure.1 (initRun .ok) "EACCES".data rfl

/-- C3 counterexample: `stdout.trim()` strips leading whitespace as
well: with captured stdout `" hi\n"` the call resolves with `"hi"`, not
with the trailing-only-trimmed `" hi"` the claim describes. -/
theorem claim3_counterexample :
    runResult .ok [.outData " hi\n".data, .closeEvt 0] =
      some (.ok "hi".data) ∧
    trimEndOnly " hi\n".data = " hi".data ∧
    "hi".data ≠ " hi".data := by decide

/-- C3 (amended): a subprocess exiting 0 resolves the call with the
accumulated stdout trimmed of leading and trailing whitespace (JS
`trim()`), and for every known tool whose required arguments are
present the dispatcher wraps the resolved text as the single
`{type: "text"}` entry of the response envelope. -/
theorem claim3_success_path :
    (∀ chunks : List (List Char),
      runResult .ok (chunks.map PEvent.outData ++ [.closeEvt 0]) =
        some (.ok (jsTrim chunks.flatten))) ∧
    (∀ (name : List Char) (args : ToolArgs) (out : List Char),
      name ∈ knownToolNames → requiredArgsPresent name args = true →
      dispatch name args (fun _ _ => .ok out) =
        (.ok [⟨"text".data, out⟩], 1)) := by
  constructor
  · intro chunks
    unfold runResult runTrace
    rw [List.foldl_append, foldl_outData]
    simp [step, settle, initRun]
  · intro name args out hmem hreq
    simp only [knownToolNames, List.mem_cons, List.not_mem_nil,
      or_false] at hmem
    rcases hmem with rfl | rfl | rfl | rfl | rfl | rfl | rfl
    · unfold requiredArgsPresent at hreq
      rw [if_pos (Or.inl rfl)] at hreq
      obtain ⟨c, hc⟩ := Option.isSome_iff_exists.mp hreq
      unfold dispatch
      rw [if_pos rfl, hc]
      simp [withRequiredArg, invokeTool]
    · unfold requiredArgsPresent at hreq
      rw [if_pos (Or.inr (Or.inl rfl))] at hreq
      obtain ⟨c, hc⟩ := Option.isSome_iff_exists.mp hreq
      unfold dispatch
      rw [if_neg (by decide), if_pos rfl, hc]
      simp [withRequiredArg, invokeTool]
    · unfold requiredArgsPresent at hreq
      rw [if_pos (Or.inr (Or.inr (Or.inl rfl)))] at hreq
      obtain ⟨c, hc⟩ := Option.isSome_iff_exists.mp hreq
      unfold dispatch
      rw [if_neg (by decide), if_neg (by decide), if_pos rfl, hc]
      simp [withRequiredArg, invokeTool]
    · unfold requiredArgsPresent at hreq
      rw [if_pos (Or.inr (Or.inr (Or.inr (Or.inl rfl))))] at hreq
      obtain ⟨c, hc⟩ := Option.isSome_iff_exists.mp hreq
      unfold dispatch
      rw [if_neg (by decide), if_neg (by decide), if_neg (by decide),
        if_pos rfl, hc]
      simp [withRequiredArg, invokeTool]
    · unfold requiredArgsPresent at hreq
      rw [if_pos (Or.inr (Or.inr (Or.inr (Or.inr rfl))))] at hreq
      obtain ⟨c, hc⟩ := Option.isSome_iff_exists.mp hreq
      unfold dispatch
      rw [if_neg (by decide), if_neg (by decide), if_neg (by decide),
        if_neg (by decide), if_pos rfl, hc]
      simp [withRequiredArg, invokeTool]
    · unfold dispatch
      rw [if_neg (by decide), if_neg (by decide), if_neg (by decide),
        if_neg (by decide), if_neg (by decide), if_pos rfl]
      simp [invokeTool]
    · unfold requiredArgsPresent at hreq
      rw [if_neg (by decide), if_pos rfl] at hreq
      obtain ⟨q, hq⟩ := Option.isSome_iff_exists.mp hreq
      unfold dispatch
      rw [if_neg (by decide), if_neg (by decide), if_neg (by decide),
        if_neg (by decide), if_neg (by decide), if_neg (by decide),
        if_pos rfl, hq]
      simp [withRequiredArg, invokeTool]

/-- C3 witness: the success envelope for a concrete `explain_code`
call. -/
theorem claim3_success_path_witness :
    ("explain_code".data ∈ knownToolNames) ∧
    (requiredArgsPresent "explain_code".data
      { code := some "x".data } = true) ∧
    dispatch "explain_code".data { code := some "x".data }
      (fun _ _ => .ok "out".data) =
      (.ok [⟨"text".data, "out".data⟩], 1) :=
  ⟨by decide, by decide,
    claim3_success_path.2 _ _ _ (by decide) (by decide)⟩

/-- C1 counterexample: for the unknown tool name `delete_everything`
the dispatcher's own outer catch re-wraps the internally thrown 404
`McpError`, so the caller-visible failure carries code 500, not the
"not found" classification 404 (no subprocess is spawned). -/
theorem claim1_counterexample :
    (dispatch "delete_everything".data {} (fun _ _ => .ok [])).1 =
      .error ⟨500, "Unknown tool: delete_everything".data⟩ ∧
    (dispatch "delete_everything".data {} (fun _ _ => .ok [])).2 = 0 ∧
    (500 : Nat) ≠ 404 := by decide

/-- C1 (amended): an unknown tool name makes the `switch` default throw
`McpError(404, "Unknown tool: " + name)`, which the handler's own outer
catch immediately re-wraps, so the call fails with the uniform
internal-error classification 500 carrying the unknown-tool message,
and no subprocess is ever spawned. -/
theorem claim1_unknown_tool (name : List Char) (args : ToolArgs)
    (runner : List (List Char) → List Char → Except (List Char) (List Char))
    (h : name ∉ knownToolNames) :
    dispatch name args runner = (.error ⟨500, unknownToolMsg name⟩, 0) := by
  simp only [knownToolNames, List.mem_cons, List.not_mem_nil, or_false,
    not_or] at h
  obtain ⟨h1, h2, h3, h4, h5, h6, h7⟩ := h
  unfold dispatch
  rw [if_neg h1, if_neg h2, if_neg h3, if_neg h4, if_neg h5, if_neg h6,
    if_neg h7]

/-- C1 witness: the amended behaviour at `delete_everything`. -/
theorem claim1_unknown_tool_witness :
    ("delete_everything".data ∉ knownToolNames) ∧
    dispatch "delete_everything".data {}
      (fun _ _ => .error "ignored".data) =
      (.error ⟨500, unknownToolMsg "delete_everything".data⟩, 0) :=
  ⟨by decide, claim1_unknown_tool _ {} _ (by decide)⟩

/-- C7: for known tools, every failure — a prompt-stage exception or a
runner rejection (spawn failure, timeout, non-zero exit) — is caught at
the dispatcher boundary and surfaces as the single uniform
`McpError 500` whose message is the original error message, never as a
raw exception. -/
theorem claim7_uniform_errors (name : List Char) (args : ToolArgs)
    (runner : List (List Char) → List Char → Except (List Char) (List Char))
    (e : McpErr) (hmem : name ∈ knownToolNames)
    (herr : (dispatch name args runner).1 = .error e) :
    e.code = 500 ∧
    (e.message = undefinedPropErr ∨
      ∃ p, runner ["--print".data] p = .error e.message) := by
  simp only [knownToolNames, List.mem_cons, List.not_mem_nil,
    or_false] at hmem
  have harg : ∀ (a : Option (List Char))
      (k : List Char → Except McpErr (List ContentItem) × Nat),
      (withRequiredArg a k).1 = .error e →
      (∀ v, (k v).1 = .error e →
        e.code = 500 ∧ (e.message = undefinedPropErr ∨
          ∃ p, runner ["--print".data] p = .error e.message)) →
      e.code = 500 ∧ (e.message = undefinedPropErr ∨
        ∃ p, runner ["--print".data] p = .error e.message) := by
    intro a k h hk
    cases a with
    | none =>
      simp only [withRequiredArg] at h
      injection h with h
      subst h
      exact ⟨rfl, Or.inl rfl⟩
    | some v => exact hk v h
  rcases hmem with rfl | rfl | rfl | rfl | rfl | rfl | rfl
  · unfold dispatch at herr
    rw [if_pos rfl] at herr
    exact harg _ _ herr fun v hv => by
      have h := invokeTool_error _ _ _ hv
      exact ⟨h.1, Or.inr h.2⟩
  · unfold dispatch at herr
    rw [if_neg (by decide), if_pos rfl] at herr
    exact harg _ _ herr fun v hv => by
      have h := invokeTool_error _ _ _ hv
      exact ⟨h.1, Or.inr h.2⟩
  · unfold dispatch at herr
    rw [if_neg (by decide), if_neg (by decide), if_pos rfl] at herr
    exact harg _ _ herr fun v hv => by
      have h := invokeTool_error _ _ _ hv
      exact ⟨h.1, Or.inr h.2⟩
  · unfold dispatch at herr
    rw [if_neg (by decide), if_neg (by decide), if_neg (by decide),
      if_pos rfl] at herr
    exact harg _ _ herr fun v hv => by
      have h := invokeTool_error _ _ _ hv
      exact ⟨h.1, Or.inr h.2⟩
  · unfold dispatch at herr
    rw [if_neg (by decide), if_neg (by decide), if_neg (by decide),
      if_neg (by decide), if_pos rfl] at herr
    exact harg _ _ herr fun v hv => by
      have h := invokeTool_error _ _ _ hv
      exact ⟨h.1, Or.inr h.2⟩
  · unfold dispatch at herr
    rw [if_neg (by decide), if_neg (by decide), if_neg (by decide),
      if_neg (by decide), if_neg (by decide), if_pos rfl] at herr
    have h := invokeTool_error _ _ _ herr
    exact ⟨h.1, Or.inr h.2⟩
  · unfold dispatch at herr
    rw [if_neg (by decide), if_neg (by decide), if_neg (by decide),
      if_neg (by decide), if_neg (by decide), if_neg (by decide),
      if_pos rfl] at herr
    exact harg _ _ herr fun v hv => by
      have h := invokeTool_error _ _ _ hv
      exact ⟨h.1, Or.inr h.2⟩

/-- C7 witness: a missing required argument surfaces as
`McpError 500` carrying the TypeError message. -/
theorem claim7_uniform_errors_witness :
    (⟨500, undefinedPropErr⟩ : McpErr).code = 500 ∧
    ((⟨500, undefinedPropErr⟩ : McpErr).message = undefinedPropErr ∨
      ∃ p, (fun (_ : List (List Char)) (_ : List Char) =>
          (Except.ok "ok".data : Except (List Char) (List Char)))
        ["--print".data] p =
        .error (⟨500, undefinedPropErr⟩ : McpErr).message) :=
  claim7_uniform_errors "fix_code".data {}
    (fun _ _ => Except.ok "ok".data) ⟨500, undefinedPropErr⟩
    (by decide) (by decide)

end ClaudeCodeServer
